import Mathlib

/-!
Shallow embedding of `academic_research/sub_agents/weather_agent/tools.py`:
the retry/backoff executor `retry_api_call` and the two lookup tools
`get_lat_lng` and `get_weather`.

Modelling conventions:
* Python floats are modelled as rationals (`ℚ`); the delay and jitter
  arithmetic, coordinate values and temperature rounding are exact in `ℚ`.
* An async operation is modelled as a function from the zero-based attempt
  index to `Except ε α` (each loop iteration invokes the operation once;
  the index records which invocation it is, so "fails k times then
  succeeds" is expressible).
* The RNG stream `random.uniform(0.2, 0.5)` is modelled as an explicit
  function `u : Nat → ℚ` giving the draw used on each retry index.
* `retry_api_call` returns a trace: the outcome (value returned, error
  raised, or the post-loop fall-through paths), the number of times the
  operation was invoked, and the list of sleep durations.
* HTTP backends are modelled as functions from the attempt index to a
  response value (network/status failure, or a parsed JSON body).
-/

/-- Round-to-nearest with ties to even, as the Python format spec `.0f`
does on the (here: rational) value. -/
def rne (x : ℚ) : ℤ :=
  let f := ⌊x⌋
  if x - f < 1/2 then f
  else if 1/2 < x - f then f + 1
  else if f % 2 = 0 then f else f + 1

/-- Formatting with the Python format spec `.0f`. -/
def fmtF0 (x : ℚ) : String := toString (rne x)

/-- Two-digit zero padding. -/
def pad2 (n : Nat) : String := if n < 10 then "0" ++ toString n else toString n

/-- Formatting with the Python format spec `.2f`. -/
def fmtF2 (x : ℚ) : String :=
  let n := rne (x * 100)
  let s := if n < 0 then "-" else ""
  s ++ toString (n.natAbs / 100) ++ "." ++ pad2 (n.natAbs % 100)

/-- Interpolation of a number into a Python f-string (stand-in; claims
only depend on where it is used, not on the exact digits). -/
def pyStr (q : ℚ) : String := if q.den = 1 then toString q.num else toString q

/-- How one call to `retry_api_call` can end: `success` is `return await
func()` inside the loop, `raised` is the `raise e` on the last attempt,
and the two `fellThrough` constructors are the code after the loop
(`raise last_exception` resp. the implicit `return None`). -/
inductive RetryOutcome (ε α : Type) where
  | success : α → RetryOutcome ε α
  | raised : ε → RetryOutcome ε α
  | fellThroughRaise : ε → RetryOutcome ε α
  | fellThroughNone : RetryOutcome ε α
deriving DecidableEq

/-- Observable trace of one `retry_api_call` run: final outcome, number of
invocations of the operation, and the list of `asyncio.sleep` durations. -/
structure RetryTrace (ε α : Type) where
  outcome : RetryOutcome ε α
  calls : Nat
  waits : List ℚ
deriving DecidableEq

/-- The sleep duration after a failed attempt:
`delay = min(base_delay * (2.0 ** attempt), 15.0)`;
`jitter = random.uniform(0.2, 0.5) * delay`; sleep `delay + jitter`. -/
def total_delay (u : Nat → ℚ) (base_delay : ℚ) (attempt : Nat) : ℚ :=
  let delay := min (base_delay * 2 ^ attempt) 15
  let jitter := u attempt * delay
  delay + jitter

/-- The `for attempt in range(max_retries + 1)` loop of `retry_api_call`,
iterating over the remaining attempt indices while tracking
`last_exception`.  On `[]` the loop has ended without returning or
raising: the code after the loop runs. -/
def retryGo (op : Nat → Except ε α) (u : Nat → ℚ) (base_delay : ℚ)
    (max_retries : Nat) : List Nat → Option ε → RetryTrace ε α
  | [], none => ⟨RetryOutcome.fellThroughNone, 0, []⟩
  | [], some e => ⟨RetryOutcome.fellThroughRaise e, 0, []⟩
  | attempt :: rest, _ =>
    match op attempt with
    | Except.ok a => ⟨RetryOutcome.success a, 1, []⟩
    | Except.error e =>
      if attempt = max_retries then ⟨RetryOutcome.raised e, 1, []⟩
      else
        let t := retryGo op u base_delay max_retries rest (some e)
        ⟨t.outcome, t.calls + 1, total_delay u base_delay attempt :: t.waits⟩

/-- Embedding of `retry_api_call(func, max_retries, base_delay)` from
`tools.py` (defaults there: `max_retries=3`, `base_delay=1.0`). -/
def retry_api_call (op : Nat → Except ε α) (u : Nat → ℚ)
    (max_retries : Nat) (base_delay : ℚ) : RetryTrace ε α :=
  retryGo op u base_delay max_retries (List.range (max_retries + 1)) none

/-- One candidate of the geocoding JSON array, after `float(...)` parsing of
its `lat`/`lon` fields. -/
structure GeoCandidate where
  lat : ℚ
  lon : ℚ
deriving DecidableEq

/-- Errors `_make_geocode_request` can raise: an httpx/status error during
the request, or the `ValueError("No coordinates found ...")`. -/
inductive GeoErr where
  | netErr : GeoErr
  | noCoords : GeoErr
deriving DecidableEq

/-- One response of the geocoding backend: the request raised, or it
returned a JSON array of candidates. -/
inductive GeoResp where
  | fail : GeoResp
  | body : List GeoCandidate → GeoResp
deriving DecidableEq

/-- The dictionary with keys `lat` and `lng`. -/
structure Coord where
  lat : ℚ
  lng : ℚ
deriving DecidableEq

/-- Embedding of `_make_geocode_request` from `get_lat_lng`: raise on
request failure; on an empty candidate list raise `ValueError`; otherwise
return the coordinates of the first candidate. -/
def _make_geocode_request (resp : GeoResp) : Except GeoErr Coord :=
  match resp with
  | GeoResp.fail => Except.error GeoErr.netErr
  | GeoResp.body [] => Except.error GeoErr.noCoords
  | GeoResp.body (c :: _) => Except.ok ⟨c.lat, c.lon⟩

/-- Embedding of `get_lat_lng(location_description)`: with no
`GEO_API_KEY` return the Bangkok fallback immediately; otherwise run
`_make_geocode_request` under
`retry_api_call(max_retries=3, base_delay=2.0)` and on any raised error
return the Bangkok fallback. -/
def get_lat_lng (geo_api_key : Option String) (backend : Nat → GeoResp)
    (u : Nat → ℚ) : Coord :=
  match geo_api_key with
  | none => ⟨13.7563, 100.5018⟩
  | some _ =>
    match (retry_api_call (fun i => _make_geocode_request (backend i)) u 3 2).outcome with
    | RetryOutcome.success c => c
    | _ => ⟨13.7563, 100.5018⟩

/-- The values object nested under the `data` key of the weather JSON,
plus the `time` field next to it. `none` models an absent key. -/
structure WeatherBody where
  temperatureApparent : ℚ
  weatherCode : Option Int
  humidity : Option ℚ
  windSpeed : Option ℚ
  time : Option String
deriving DecidableEq

/-- Errors `_make_weather_request` can raise: an httpx/status error, or the
`ValueError("Invalid weather API response format")`. -/
inductive WeatherErr where
  | netErr : WeatherErr
  | invalidFormat : WeatherErr
deriving DecidableEq

/-- One response of the weather backend: the request raised, or it returned
JSON whose `data`/`values` nesting is present (`some body`) or absent
(`none`). -/
inductive WeatherResp where
  | fail : WeatherResp
  | body : Option WeatherBody → WeatherResp
deriving DecidableEq

/-- The weather report dictionary; `none` in an `Option` field models an
absent dictionary key. -/
structure WeatherReport where
  temperature : String
  description : String
  humidity : Option String
  wind_speed : Option String
  location : String
  timestamp : Option String
  note : Option String
deriving DecidableEq

/-- The `code_lookup` table of `get_weather`, in source order. -/
def code_lookup : List (Int × String) :=
  [(1000, "Clear, Sunny"),
   (1100, "Mostly Clear"),
   (1101, "Partly Cloudy"),
   (1102, "Mostly Cloudy"),
   (1001, "Cloudy"),
   (2000, "Fog"),
   (2100, "Light Fog"),
   (4000, "Drizzle"),
   (4001, "Rain"),
   (4200, "Light Rain"),
   (4201, "Heavy Rain"),
   (5000, "Snow"),
   (5001, "Flurries"),
   (5100, "Light Snow"),
   (5101, "Heavy Snow"),
   (6000, "Freezing Drizzle"),
   (6001, "Freezing Rain"),
   (6200, "Light Freezing Rain"),
   (6201, "Heavy Freezing Rain"),
   (7000, "Ice Pellets"),
   (7101, "Heavy Ice Pellets"),
   (7102, "Light Ice Pellets"),
   (8000, "Thunderstorm")]

/-- The dictionary access `code_lookup.get(weatherCode, default)` with
default `"Unknown"`: an absent `weatherCode` key or a code outside the
table yields `"Unknown"`. -/
def code_lookup_get (k : Option Int) : String :=
  match k with
  | none => "Unknown"
  | some c => ((code_lookup.find? fun p => p.1 == c).map Prod.snd).getD "Unknown"

/-- The formatted location label `Location (lat:.2f, lng:.2f)`. -/
def locLabel (lat lng : ℚ) : String :=
  "Location (" ++ fmtF2 lat ++ ", " ++ fmtF2 lng ++ ")"

/-- Embedding of `_make_weather_request` from `get_weather`: raise on
request failure;
raise `ValueError` when `data`/`values` is missing; otherwise build the
report. Note the humidity and wind fields interpolate the `"N/A"` default
and then append the unit, giving `"N/A%"` / `"N/A m/s"` when absent. -/
def _make_weather_request (lat lng : ℚ) (resp : WeatherResp) :
    Except WeatherErr WeatherReport :=
  match resp with
  | WeatherResp.fail => Except.error WeatherErr.netErr
  | WeatherResp.body none => Except.error WeatherErr.invalidFormat
  | WeatherResp.body (some v) =>
    Except.ok
      ⟨fmtF0 v.temperatureApparent ++ "C",
       code_lookup_get v.weatherCode,
       some ((match v.humidity with
              | some h => pyStr h
              | none => "N/A") ++ "%"),
       some ((match v.windSpeed with
              | some w => pyStr w
              | none => "N/A") ++ " m/s"),
       locLabel lat lng,
       some (v.time.getD "Unknown time"),
       none⟩

/-- The fallback report of `get_weather`; `withNote` distinguishes the
retry-exhaustion fallback (carrying the `note` key) from the
missing-credential fallback (no `note` key). -/
def weatherFallback (lat lng : ℚ) (withNote : Bool) : WeatherReport :=
  ⟨"28C", "Partly Cloudy", none, none, locLabel lat lng, none,
   if withNote then some "Weather data temporarily unavailable due to API limits"
   else none⟩

/-- Embedding of `get_weather(lat, lng)`: with no `WEATHER_API_KEY`
return the dummy
report immediately; otherwise run `_make_weather_request` under
`retry_api_call(max_retries=3, base_delay=3.0)` and on any raised error
return the fallback report with the `note` key. -/
def get_weather (weather_api_key : Option String) (lat lng : ℚ)
    (backend : Nat → WeatherResp) (u : Nat → ℚ) : WeatherReport :=
  match weather_api_key with
  | none => weatherFallback lat lng false
  | some _ =>
    match (retry_api_call (fun i => _make_weather_request lat lng (backend i)) u 3 3).outcome with
    | RetryOutcome.success r => r
    | _ => weatherFallback lat lng true

lemma rne_dist (x : ℚ) : |(rne x : ℚ) - x| ≤ 1/2 := by
  have h1 : (⌊x⌋ : ℚ) ≤ x := Int.floor_le x
  have h2 : x < ⌊x⌋ + 1 := Int.lt_floor_add_one x
  simp only [rne]
  split_ifs with ha hb hc
  · rw [abs_le]; constructor <;> linarith
  · rw [abs_le]; push_cast; constructor <;> linarith
  · rw [abs_le]; constructor <;> linarith
  · rw [abs_le]; push_cast; constructor <;> linarith

lemma retryGo_firstSuccess (op : Nat → Except ε α) (u : Nat → ℚ) (base_delay : ℚ)
    (max_retries k : Nat) (v : α) (hk : k ≤ max_retries)
    (hs : op k = Except.ok v)
    (hf : ∀ i, i < k → ∃ e, op i = Except.error e) :
    ∀ n a last, a + n = max_retries + 1 → a ≤ k →
      (retryGo op u base_delay max_retries (List.range' a n) last).outcome =
        RetryOutcome.success v ∧
      (retryGo op u base_delay max_retries (List.range' a n) last).calls = k + 1 - a := by
  intro n
  induction n with
  | zero => intro a last h1 h2; omega
  | succ m ih =>
    intro a last h1 h2
    have hr : List.range' a (m + 1) = a :: List.range' (a + 1) m := rfl
    rcases Nat.eq_or_lt_of_le h2 with heq | hlt
    · subst heq
      rw [hr]
      constructor
      · simp only [retryGo, hs]
      · simp only [retryGo, hs]
        omega
    · obtain ⟨e, he⟩ := hf a hlt
      have hne : a ≠ max_retries := by omega
      have hrec := ih (a + 1) (some e) (by omega) (by omega)
      rw [hr]
      constructor
      · simp only [retryGo, he, hne, if_false, ite_false]
        exact hrec.1
      · simp only [retryGo, he, hne, if_false, ite_false]
        rw [hrec.2]
        omega

lemma retryGo_allFail (op : Nat → Except ε α) (u : Nat → ℚ) (base_delay : ℚ)
    (max_retries : Nat) (e : Nat → ε)
    (hf : ∀ i, i ≤ max_retries → op i = Except.error (e i)) :
    ∀ n a last, a + n = max_retries + 1 → 0 < n →
      retryGo op u base_delay max_retries (List.range' a n) last =
        ⟨RetryOutcome.raised (e max_retries), n,
         (List.range' a (n - 1)).map (total_delay u base_delay)⟩ := by
  intro n
  induction n with
  | zero => intro a last h1 h2; omega
  | succ m ih =>
    intro a last h1 _
    have he : op a = Except.error (e a) := hf a (by omega)
    have hr : List.range' a (m + 1) = a :: List.range' (a + 1) m := rfl
    rcases Nat.eq_zero_or_pos m with hm | hm
    · subst hm
      have ha : a = max_retries := by omega
      subst ha
      rw [hr]
      simp [retryGo, he]
    · have hne : a ≠ max_retries := by omega
      have hrec := ih (a + 1) (some (e a)) (by omega) hm
      rw [hr]
      simp only [retryGo, he, hne, if_false, ite_false, hrec]
      obtain ⟨m2, rfl⟩ : ∃ m2, m = m2 + 1 := ⟨m - 1, by omega⟩
      simp only [Nat.add_sub_cancel]
      rw [show List.range' a (m2 + 1) = a :: List.range' (a + 1) m2 from rfl,
        List.map_cons]

lemma retryGo_terminates (op : Nat → Except ε α) (u : Nat → ℚ) (base_delay : ℚ)
    (max_retries : Nat) :
    ∀ n a last, a + n = max_retries + 1 → 0 < n →
      (∃ v, (retryGo op u base_delay max_retries (List.range' a n) last).outcome =
        RetryOutcome.success v) ∨
      (∃ er, (retryGo op u base_delay max_retries (List.range' a n) last).outcome =
        RetryOutcome.raised er) := by
  intro n
  induction n with
  | zero => intro a last h1 h2; omega
  | succ m ih =>
    intro a last h1 _
    have hr : List.range' a (m + 1) = a :: List.range' (a + 1) m := rfl
    rw [hr]
    rcases hop : op a with er | v
    · by_cases ha : a = max_retries
      · subst ha
        exact Or.inr ⟨er, by simp [retryGo, hop]⟩
      · have hm : 0 < m := by omega
        have hrec := ih (a + 1) (some er) (by omega) hm
        rcases hrec with ⟨v, hv⟩ | ⟨er2, her2⟩
        · exact Or.inl ⟨v, by simp only [retryGo, hop, ha, if_false, ite_false]; exact hv⟩
        · exact Or.inr ⟨er2, by simp only [retryGo, hop, ha, if_false, ite_false]; exact her2⟩
    · exact Or.inl ⟨v, by simp [retryGo, hop]⟩

lemma retryGo_success_mem (op : Nat → Except ε α) (u : Nat → ℚ) (base_delay : ℚ)
    (max_retries : Nat) :
    ∀ l last v, (retryGo op u base_delay max_retries l last).outcome =
        RetryOutcome.success v →
      ∃ i, i ∈ l ∧ op i = Except.ok v := by
  intro l
  induction l with
  | nil =>
    intro last v h
    cases last <;> simp [retryGo] at h
  | cons a rest ih =>
    intro last v h
    rcases hop : op a with er | w
    · by_cases ha : a = max_retries
      · subst ha
        simp [retryGo, hop] at h
      · simp only [retryGo, hop, ha, if_false, ite_false] at h
        obtain ⟨i, hi, hoi⟩ := ih (some er) v h
        exact ⟨i, List.mem_cons_of_mem a hi, hoi⟩
    · simp only [retryGo, hop, RetryOutcome.success.injEq] at h
      subst h
      exact ⟨a, List.mem_cons_self a rest, hop⟩

lemma retryGo_indep (op : Nat → Except ε α) (u u2 : Nat → ℚ)
    (base_delay : ℚ) (max_retries : Nat) :
    ∀ l last,
      (retryGo op u base_delay max_retries l last).outcome =
        (retryGo op u2 base_delay max_retries l last).outcome ∧
      (retryGo op u base_delay max_retries l last).calls =
        (retryGo op u2 base_delay max_retries l last).calls := by
  intro l
  induction l with
  | nil => intro last; cases last <;> simp [retryGo]
  | cons a rest ih =>
    intro last
    rcases hop : op a with er | w
    · by_cases ha : a = max_retries
      · simp [retryGo, hop, ha]
      · have hrec := ih (some er)
        constructor
        · simp only [retryGo, hop, ha, if_false, ite_false]
          exact hrec.1
        · simp only [retryGo, hop, ha, if_false, ite_false]
          rw [hrec.2]
    · simp [retryGo, hop]

lemma retry_exhaust_raised (op : Nat → Except ε α) (u : Nat → ℚ) (base_delay : ℚ)
    (hf : ∀ i, i ≤ 3 → ∃ er, op i = Except.error er) :
    ∃ er, (retry_api_call op u 3 base_delay).outcome = RetryOutcome.raised er := by
  have hterm := retryGo_terminates op u base_delay 3 4 0 none rfl (by omega)
  rw [retry_api_call, List.range_eq_range']
  rcases hterm with ⟨v, hv⟩ | h
  · exfalso
    obtain ⟨i, hi, hoi⟩ :=
      retryGo_success_mem op u base_delay 3 (List.range' 0 4) none v hv
    have hi4 : i ≤ 3 := by
      have hlt : i < 0 + 4 := (List.mem_range'_1.mp hi).2
      omega
    obtain ⟨er, her⟩ := hf i hi4
    rw [hoi] at her
    cases her
  · exact h


example :
    get_lat_lng none (fun _ => GeoResp.fail) (fun _ => 0) = ⟨13.7563, 100.5018⟩ := by
  rfl

example :
    get_lat_lng (some "k") (fun _ => GeoResp.body [⟨13.75, 100.50⟩]) (fun _ => 0) =
      ⟨13.75, 100.50⟩ := by
  rfl

example :
    (retry_api_call (fun i => (Except.error i : Except Nat Unit)) (fun _ => 0) 3 1).calls = 4 := by
  rfl

example :
    (retry_api_call (fun i => (Except.error i : Except Nat Unit)) (fun _ => 0) 3 1).outcome =
      RetryOutcome.raised 3 := by
  rfl

example : fmtF0 25.6 = "26" := by
  have h : rne 25.6 = 26 := by norm_num [rne]
  rw [fmtF0, h]
  rfl

example : fmtF2 13.7563 = "13.76" := by
  have h : rne (13.7563 * 100) = 1376 := by norm_num [rne]
  rw [fmtF2, h]
  rfl

example : code_lookup_get (some 4001) = "Rain" := by rfl

example : code_lookup_get (some 9999) = "Unknown" := by rfl

example : code_lookup.length = 23 := by rfl

/-- C1: for every asynchronous operation that fails exactly `k` times and
then succeeds, with `k ≤ max_retries`, `retry_api_call` returns the
success value of the operation and invokes the operation exactly
`k + 1` times. -/
theorem retry_success_after_k_failures (op : Nat → Except ε α) (u : Nat → ℚ)
    (base_delay : ℚ) (max_retries k : Nat) (v : α) (hk : k ≤ max_retries)
    (hs : op k = Except.ok v)
    (hf : ∀ i, i < k → ∃ e, op i = Except.error e) :
    (retry_api_call op u max_retries base_delay).outcome = RetryOutcome.success v ∧
    (retry_api_call op u max_retries base_delay).calls = k + 1 := by
  have h := retryGo_firstSuccess op u base_delay max_retries k v hk hs hf
    (max_retries + 1) 0 none (by omega) (Nat.zero_le k)
  rw [retry_api_call, List.range_eq_range']
  exact ⟨h.1, by rw [h.2]; omega⟩

theorem retry_success_after_k_failures_witness :
    (retry_api_call
        (fun i => if i < 2 then (Except.error 0 : Except Nat Nat) else Except.ok 7)
        (fun _ => 0) 3 1).outcome = RetryOutcome.success 7 ∧
    (retry_api_call
        (fun i => if i < 2 then (Except.error 0 : Except Nat Nat) else Except.ok 7)
        (fun _ => 0) 3 1).calls = 3 :=
  retry_success_after_k_failures _ _ _ 3 2 7 (by omega) (if_neg (by omega))
    (fun i hi => ⟨0, if_pos hi⟩)

/-- C2: for every asynchronous operation that fails on every invocation,
`retry_api_call` with `max_retries = 3` invokes the operation exactly 4
times and then raises the error from the final attempt. -/
theorem retry_always_fail_four_attempts (op : Nat → Except ε α) (u : Nat → ℚ)
    (base_delay : ℚ) (e : Nat → ε)
    (hf : ∀ i, i ≤ 3 → op i = Except.error (e i)) :
    (retry_api_call op u 3 base_delay).outcome = RetryOutcome.raised (e 3) ∧
    (retry_api_call op u 3 base_delay).calls = 4 := by
  have h := retryGo_allFail op u base_delay 3 e hf 4 0 none rfl (by omega)
  rw [retry_api_call, List.range_eq_range', h]
  exact ⟨rfl, rfl⟩

theorem retry_always_fail_four_attempts_witness :
    (retry_api_call (fun i => (Except.error i : Except Nat Unit))
        (fun _ => 0) 3 1).outcome = RetryOutcome.raised 3 ∧
    (retry_api_call (fun i => (Except.error i : Except Nat Unit))
        (fun _ => 0) 3 1).calls = 4 :=
  retry_always_fail_four_attempts _ _ _ (fun i => i) (fun _ _ => rfl)

/-- C10: for every operation and every `max_retries`, `retry_api_call`
either returns a value produced by the operation or raises an error raised
by the operation, always from within the retry loop: the code after the
loop (re-raising `last_exception`, or returning `None`) is unreachable. -/
theorem retry_no_fallthrough (op : Nat → Except ε α) (u : Nat → ℚ)
    (base_delay : ℚ) (max_retries : Nat) :
    (∃ v, (retry_api_call op u max_retries base_delay).outcome =
      RetryOutcome.success v) ∨
    (∃ er, (retry_api_call op u max_retries base_delay).outcome =
      RetryOutcome.raised er) := by
  have h := retryGo_terminates op u base_delay max_retries
    (max_retries + 1) 0 none (by omega) (by omega)
  rw [retry_api_call, List.range_eq_range']
  exact h

/-- C4: before each terminal failure, `retry_api_call` waits
`delay + jitter` seconds with `delay = min(base_delay * 2^i, 15)` and
`jitter = u i * delay` for the uniform draw `u i ∈ [0.2, 0.5]`
(`total_delay` is exactly this expression); with an always-failing
operation and `max_retries = 3` the cumulative wait is bounded above by
`4 * (15 * 1.5)` seconds. -/
theorem retry_wait_bound (op : Nat → Except ε α) (u : Nat → ℚ)
    (base_delay : ℚ) (e : Nat → ε)
    (hf : ∀ i, i ≤ 3 → op i = Except.error (e i))
    (hu : ∀ i, 0.2 ≤ u i ∧ u i ≤ 0.5) (hb : 0 < base_delay) :
    (retry_api_call op u 3 base_delay).waits =
      [total_delay u base_delay 0, total_delay u base_delay 1,
       total_delay u base_delay 2] ∧
    (retry_api_call op u 3 base_delay).waits.sum ≤ 4 * (15 * 1.5) := by
  have h := retryGo_allFail op u base_delay 3 e hf 4 0 none rfl (by omega)
  have hw : (retry_api_call op u 3 base_delay).waits =
      [total_delay u base_delay 0, total_delay u base_delay 1,
       total_delay u base_delay 2] := by
    rw [retry_api_call, List.range_eq_range', h]
    rfl
  refine ⟨hw, ?_⟩
  rw [hw]
  have hbd : ∀ i : Nat, total_delay u base_delay i ≤ 15 * 1.5 := by
    intro i
    have h15 : min (base_delay * 2 ^ i) 15 ≤ 15 := min_le_right _ _
    have h0 : (0 : ℚ) ≤ min (base_delay * 2 ^ i) 15 :=
      le_min (by positivity) (by norm_num)
    have hu1 := (hu i).1
    have hu2 := (hu i).2
    simp only [total_delay]
    nlinarith
  have hb0 := hbd 0
  have hb1 := hbd 1
  have hb2 := hbd 2
  simp only [List.sum_cons, List.sum_nil]
  norm_num
  nlinarith

theorem retry_wait_bound_witness :
    (retry_api_call (fun i => (Except.error i : Except Nat Unit))
        (fun _ => (1/4 : ℚ)) 3 2).waits.sum ≤ 4 * (15 * 1.5) :=
  (retry_wait_bound _ _ _ (fun i => i) (fun _ _ => rfl)
    (fun _ => by norm_num) (by norm_num)).2

/-- C3: `get_lat_lng` and `get_weather` are total: with no credential they
return the fixed fallback (`{lat: 13.7563, lng: 100.5018}` resp. the dummy
report); when every attempt of the retry executor raises they return the
fallback as well; and when the retry executor succeeds they return its
real result. -/
theorem lookups_never_raise (backend : Nat → GeoResp)
    (wbackend : Nat → WeatherResp) (u : Nat → ℚ) (key : String)
    (lat lng : ℚ) :
    (get_lat_lng none backend u = ⟨13.7563, 100.5018⟩) ∧
    ((∀ i, i ≤ 3 → ∃ er, _make_geocode_request (backend i) = Except.error er) →
      get_lat_lng (some key) backend u = ⟨13.7563, 100.5018⟩) ∧
    (∀ c, (retry_api_call (fun i => _make_geocode_request (backend i)) u 3 2).outcome =
        RetryOutcome.success c → get_lat_lng (some key) backend u = c) ∧
    (get_weather none lat lng wbackend u = weatherFallback lat lng false) ∧
    ((∀ i, i ≤ 3 → ∃ er, _make_weather_request lat lng (wbackend i) = Except.error er) →
      get_weather (some key) lat lng wbackend u = weatherFallback lat lng true) ∧
    (∀ rep, (retry_api_call (fun i => _make_weather_request lat lng (wbackend i)) u 3 3).outcome =
        RetryOutcome.success rep → get_weather (some key) lat lng wbackend u = rep) := by
  refine ⟨rfl, ?_, ?_, rfl, ?_, ?_⟩
  · intro hfail
    obtain ⟨er, her⟩ :=
      retry_exhaust_raised (fun i => _make_geocode_request (backend i)) u 2 hfail
    simp [get_lat_lng, her]
  · intro c hc
    simp [get_lat_lng, hc]
  · intro hfail
    obtain ⟨er, her⟩ :=
      retry_exhaust_raised (fun i => _make_weather_request lat lng (wbackend i)) u 3 hfail
    simp [get_weather, her]
  · intro rep hrep
    simp [get_weather, hrep]

theorem lookups_never_raise_witness :
    get_lat_lng (some "k") (fun _ => GeoResp.fail) (fun _ => 0) =
      ⟨13.7563, 100.5018⟩ :=
  (lookups_never_raise (fun _ => GeoResp.fail) (fun _ => WeatherResp.fail)
    (fun _ => 0) "k" 0 0).2.1 (fun _ _ => ⟨GeoErr.netErr, rfl⟩)

/-- C8: with no weather credential, `get_weather` returns exactly the dummy
report (temperature `"28C"`, description `"Partly Cloudy"`, two-decimal
location label) with no `note` field, independently of the backend and the
RNG (no network call); the fallback after retry exhaustion is the same
report except that it additionally carries the temporary-unavailability
`note`. -/
theorem weather_fallback_shapes (lat lng : ℚ) (wb wb2 : Nat → WeatherResp)
    (u u2 : Nat → ℚ) (key : String) :
    get_weather none lat lng wb u =
      ⟨"28C", "Partly Cloudy", none, none, locLabel lat lng, none, none⟩ ∧
    get_weather none lat lng wb u = get_weather none lat lng wb2 u2 ∧
    ((∀ i, i ≤ 3 → wb i = WeatherResp.fail) →
      get_weather (some key) lat lng wb u =
        ⟨"28C", "Partly Cloudy", none, none, locLabel lat lng, none,
         some "Weather data temporarily unavailable due to API limits"⟩) := by
  refine ⟨rfl, rfl, ?_⟩
  intro hfail
  obtain ⟨er, her⟩ :=
    retry_exhaust_raised (fun i => _make_weather_request lat lng (wb i)) u 3
      (fun i hi => ⟨WeatherErr.netErr, by simp only [hfail i hi]; rfl⟩)
  simp [get_weather, her, weatherFallback]

theorem weather_fallback_shapes_witness :
    get_weather (some "k") 1 2 (fun _ => WeatherResp.fail) (fun _ => 0) =
      ⟨"28C", "Partly Cloudy", none, none, locLabel 1 2, none,
       some "Weather data temporarily unavailable due to API limits"⟩ :=
  (weather_fallback_shapes 1 2 (fun _ => WeatherResp.fail)
    (fun _ => WeatherResp.fail) (fun _ => 0) (fun _ => 0) "k").2.2
    (fun _ _ => rfl)

/-- C5 (counterexample): on a response that omits humidity and windSpeed,
the humidity field of the report is `"N/A%"` — not `"N/A"` — and the wind-speed
field is `"N/A m/s"` — not `"N/A"` — because the `"N/A"` default is
interpolated and then the unit suffix appended. -/
theorem weather_na_fields_cex :
    (_make_weather_request 0 0
        (WeatherResp.body (some ⟨25, some 1000, none, none, none⟩))).map
      (fun rep => rep.humidity) = Except.ok (some "N/A%") ∧
    ¬ ((_make_weather_request 0 0
        (WeatherResp.body (some ⟨25, some 1000, none, none, none⟩))).map
      (fun rep => rep.humidity) = Except.ok (some "N/A")) ∧
    (_make_weather_request 0 0
        (WeatherResp.body (some ⟨25, some 1000, none, none, none⟩))).map
      (fun rep => rep.wind_speed) = Except.ok (some "N/A m/s") ∧
    ¬ ((_make_weather_request 0 0
        (WeatherResp.body (some ⟨25, some 1000, none, none, none⟩))).map
      (fun rep => rep.wind_speed) = Except.ok (some "N/A")) := by
  refine ⟨rfl, fun h => ?_, rfl, fun h2 => ?_⟩
  · have h3 : (Except.ok (some "N/A%") : Except WeatherErr (Option String)) =
        Except.ok (some "N/A") := h
    exact absurd (Option.some.inj (Except.ok.inj h3)) (by decide)
  · have h3 : (Except.ok (some "N/A m/s") : Except WeatherErr (Option String)) =
        Except.ok (some "N/A") := h2
    exact absurd (Option.some.inj (Except.ok.inj h3)) (by decide)

/-- C5 (amended): for every successful weather-service response, the
temperature is `temperatureApparent` rounded to a nearest whole degree
(ties to even, as the Python format spec `.0f`) with suffix "C" — e.g. 25.6 yields
"26C" and code 4001 the description "Rain" — the humidity field is the
humidity value followed by "%" (`"N/A%"` when the response omits
humidity), and the wind-speed field is the value plus " m/s"
(`"N/A m/s"` when the response omits windSpeed). -/
theorem weather_report_formatting (lat lng ta : ℚ) (wc : Option Int)
    (hum ws : Option ℚ) (t : Option String) :
    (∃ rep, _make_weather_request lat lng
        (WeatherResp.body (some ⟨ta, wc, hum, ws, t⟩)) = Except.ok rep ∧
      (∃ n : ℤ, rep.temperature = toString n ++ "C" ∧ |(n : ℚ) - ta| ≤ 1/2) ∧
      rep.humidity = some ((match hum with
        | some h => pyStr h
        | none => "N/A") ++ "%") ∧
      rep.wind_speed = some ((match ws with
        | some w => pyStr w
        | none => "N/A") ++ " m/s")) ∧
    (∃ rep, _make_weather_request 0 0
        (WeatherResp.body (some ⟨25.6, some 4001, none, none, none⟩)) =
          Except.ok rep ∧
      rep.temperature = "26C" ∧ rep.description = "Rain") := by
  constructor
  · exact ⟨_, rfl, ⟨rne ta, rfl, rne_dist ta⟩, rfl, rfl⟩
  · refine ⟨_, rfl, ?_, ?_⟩
    · show fmtF0 25.6 ++ "C" = "26C"
      have h : rne 25.6 = 26 := by norm_num [rne]
      rw [fmtF0, h]
      rfl
    · show code_lookup_get (some 4001) = "Rain"
      decide

/-- C6 (counterexample): the weather-code table has 23 entries, not 22 as
claimed. -/
theorem code_lookup_size_cex :
    code_lookup.length = 23 ∧ ¬ code_lookup.length = 22 :=
  ⟨rfl, by decide⟩

/-- C6 (amended): the weather-code mapping is a fixed static table of
exactly 23 entries, including 1000 → "Clear, Sunny", 4001 → "Rain" and
8000 → "Thunderstorm", and every code not in the table — as well as an
absent code — maps to "Unknown". -/
theorem code_lookup_table_props (c : Int) (hc : c ∉ code_lookup.map Prod.fst) :
    code_lookup.length = 23 ∧
    code_lookup_get (some 1000) = "Clear, Sunny" ∧
    code_lookup_get (some 4001) = "Rain" ∧
    code_lookup_get (some 8000) = "Thunderstorm" ∧
    code_lookup_get none = "Unknown" ∧
    code_lookup_get (some c) = "Unknown" := by
  refine ⟨rfl, by decide, by decide, by decide, rfl, ?_⟩
  have hfind : code_lookup.find? (fun p => p.1 == c) = none := by
    rw [List.find?_eq_none]
    intro p hp
    simp only [beq_iff_eq]
    intro hpe
    exact hc (List.mem_map.mpr ⟨p, hp, hpe⟩)
  simp [code_lookup_get, hfind]

theorem code_lookup_table_props_witness :
    code_lookup.length = 23 ∧
    code_lookup_get (some 1000) = "Clear, Sunny" ∧
    code_lookup_get (some 4001) = "Rain" ∧
    code_lookup_get (some 8000) = "Thunderstorm" ∧
    code_lookup_get none = "Unknown" ∧
    code_lookup_get (some 9999) = "Unknown" :=
  code_lookup_table_props 9999 (by decide)

/-- C7: for every non-empty geocoding candidate list, the geocode request
returns the coordinates of the first candidate and ignores all later
candidates; in particular `[{lat: 13.75, lon: 100.50}]` — even with a
second candidate present — yields `{lat: 13.75, lng: 100.50}`. -/
theorem geocode_first_candidate (c : GeoCandidate) (cs : List GeoCandidate) :
    _make_geocode_request (GeoResp.body (c :: cs)) = Except.ok ⟨c.lat, c.lon⟩ ∧
    _make_geocode_request (GeoResp.body [⟨13.75, 100.50⟩, ⟨1, 2⟩]) =
      Except.ok ⟨13.75, 100.50⟩ :=
  ⟨rfl, rfl⟩

/-- C9: with a deterministic backend (every request with the same
parameters yields the same response), calling either lookup twice with
identical arguments — only the hidden RNG stream differing between the two
invocations — yields identical results: no state persists between
invocations. -/
theorem lookups_idempotent (key : Option String) (gr : GeoResp)
    (wr : WeatherResp) (lat lng : ℚ) (u u2 : Nat → ℚ) :
    get_lat_lng key (fun _ => gr) u = get_lat_lng key (fun _ => gr) u2 ∧
    get_weather key lat lng (fun _ => wr) u =
      get_weather key lat lng (fun _ => wr) u2 := by
  cases key with
  | none => exact ⟨rfl, rfl⟩
  | some k =>
    constructor
    · have h := (retryGo_indep (fun _ => _make_geocode_request gr) u u2 2 3
        (List.range (3 + 1)) none).1
      simp only [get_lat_lng, retry_api_call]
      rw [h]
    · have h := (retryGo_indep (fun _ => _make_weather_request lat lng wr) u u2 3 3
        (List.range (3 + 1)) none).1
      simp only [get_weather, retry_api_call]
      rw [h]
